import Mathlib

/-!
Verification of the task-execution engine in run_prompts.py (with the
descriptor producer in prompt_builder.py where file naming matters).

The embedding is shallow: JSON objects become association lists from
String to String, the external HTTP service becomes an oracle mapping the
attempt index to an outcome, the SQLite done-table becomes a duplicate-free
list of ids, and the per-worker control flow of process_prompt becomes an
executable function returning the calls issued, the sink writes performed,
and either a report value or the Python exception that escaped.
-/

namespace RunPrompts

/-- JSON object, modelled as an association list with string values. -/
abbrev Obj := List (String × String)

/-- Python exceptions that can escape process_prompt uncaught.
`noneType` stands for the unreachable fall-off-the-loop path in which the
Python function would return None. -/
inductive PyError where
  | ioError
  | jsonDecodeError
  | keyError (key : String)
  | noneType
  deriving DecidableEq, Repr

/-- Content of one descriptor file as seen by process_prompt:
either the read itself fails, or json.loads fails, or a JSON object. -/
inductive FileContent where
  | unreadable
  | invalidJson (raw : String)
  | record (obj : Obj)
  deriving DecidableEq, Repr

/-- Embeds the line gid, model, prompt = rec["group_id"], rec["model"],
rec["prompt"] together with the reading and parsing that precede it;
a missing key raises KeyError on the first absent field, in source order. -/
def parseDescriptor : FileContent → Except PyError (String × String × String)
  | FileContent.unreadable => Except.error PyError.ioError
  | FileContent.invalidJson _ => Except.error PyError.jsonDecodeError
  | FileContent.record obj =>
    match List.lookup "group_id" obj with
    | none => Except.error (PyError.keyError "group_id")
    | some gid =>
      match List.lookup "model" obj with
      | none => Except.error (PyError.keyError "model")
      | some model =>
        match List.lookup "prompt" obj with
        | none => Except.error (PyError.keyError "prompt")
        | some prompt => Except.ok (gid, model, prompt)

/-- MODEL_MAP from run_prompts.py: builder model names to Ollama tags. -/
def MODEL_MAP : List (String × String) :=
  [("microsoft/phi-3-mini-4k-instruct", "phi:latest"),
   ("deepseek-llm", "deepseek-llm:latest")]

/-- TIMEOUTS from run_prompts.py: per-tag request deadlines in seconds. -/
def TIMEOUTS : List (String × Nat) :=
  [("phi:latest", 600), ("deepseek-llm:latest", 900)]

/-- DEFAULT_TIMEOUT from run_prompts.py. -/
def DEFAULT_TIMEOUT : Nat := 300

/-- Embeds MODEL_MAP.get(model, model). -/
def remapModel (model : String) : String :=
  (List.lookup model MODEL_MAP).getD model

/-- Deadline of an attempt: the timeout table is consulted with the
remapped tag, falling back to DEFAULT_TIMEOUT, as in call_ollama. -/
def timeoutFor (model : String) : Nat :=
  (List.lookup (remapModel model) TIMEOUTS).getD DEFAULT_TIMEOUT

/-- One HTTP request as issued by call_ollama: the remapped model tag, the
prompt payload, and the deadline passed to session.post. -/
structure Call where
  model : String
  prompt : String
  timeout : Nat
  deriving DecidableEq, Repr

/-- Embeds call_ollama: remap the model name, look up the timeout with the
remapped tag, build the request. -/
def callOllama (model prompt : String) : Call :=
  let ollamaModel := remapModel model
  { model := ollamaModel
    prompt := prompt
    timeout := (List.lookup ollamaModel TIMEOUTS).getD DEFAULT_TIMEOUT }

/-- HTTP response body: the text, and its JSON parse when the body is a
valid JSON object. -/
structure Body where
  json : Option Obj
  text : String
  deriving DecidableEq, Repr

/-- Outcome of one network attempt, supplied by the environment oracle.
`netError` is a requests.RequestException raised before any response
exists (timeout, connection error); `status` is a completed exchange with
the given HTTP status code and body. -/
inductive HttpOutcome where
  | netError
  | status (code : Nat) (body : Body)
  deriving DecidableEq, Repr

/-- The body available to the except-handler, which is None when the
request itself failed. -/
def respBody : HttpOutcome → Option Body
  | HttpOutcome.netError => none
  | HttpOutcome.status _ body => some body

/-- True exactly when the attempt raises requests.RequestException:
either no response, or raise_for_status fires on a 4xx or 5xx code. -/
def isFailureB : HttpOutcome → Bool
  | HttpOutcome.netError => true
  | HttpOutcome.status code _ => decide (400 ≤ code) && decide (code < 600)

/-- Embeds the Python str.strip method: the generated text with leading
and trailing whitespace removed, written with structural recursion so
that concrete runs evaluate inside the kernel. -/
def pyStrip (s : String) : String :=
  ⟨((s.data.dropWhile Char.isWhitespace).reverse.dropWhile
      Char.isWhitespace).reverse⟩

/-- Record written to the output sink for a successful task, embedding the
json.dumps object with keys group_id, model, answer. -/
structure CompletionRecord where
  group_id : String
  model : String
  answer : String
  deriving DecidableEq, Repr

/-- Value returned by the worker to the main loop, modelled structurally:
`skipped` is the already-processed line, `success` carries the gid that
the Python function returns, `failure` is the formatted error line with
the task id, the model of the last attempt and the diagnostic detail. -/
inductive Report where
  | skipped (gid : String)
  | success (gid : String)
  | failure (gid : String) (model : String) (detail : String)
  deriving DecidableEq, Repr

/-- Diagnostic detail computed in the except-handler of process_prompt:
empty when there is no response, the structured error field of the JSON
body when it parses (defaulting to empty), else the body text truncated
to 200 characters. -/
def failDetail : Option Body → String
  | none => ""
  | some b =>
    match b.json with
    | some obj => (List.lookup "error" obj).getD ""
    | none => b.text.take 200

/-- Ordered attempt list built by process_prompt: the declared model, plus
the single fallback "deepseek-llm" exactly when the declared model is the
lightweight "microsoft/phi-3-mini-4k-instruct". -/
def attemptsFor (model : String) : List String :=
  if model == "microsoft/phi-3-mini-4k-instruct" then
    [model, "deepseek-llm"]
  else
    [model]

/-- Output of the worker body: the Service Client calls issued in order,
the sink writes performed in order (file name with the record), and the
report returned, or the exception that escaped. -/
abbrev WorkerOut := List Call × List (String × CompletionRecord) × Except PyError Report

/-- Embeds the for-loop over enumerate(attempts, 1) in process_prompt.
On a RequestException the handler continues with the next model when one
remains and otherwise returns the failure line; on a success status the
body is decoded and the "response" field extracted, where a body that is
not a JSON object or lacks the field raises outside the handler; on
extraction the record is written to the sink and the gid returned. -/
def attemptLoop (oracle : Nat → HttpOutcome) (gid fileName prompt : String) :
    Nat → List String → WorkerOut
  | _, [] => ([], [], Except.error PyError.noneType)
  | idx, m :: rest =>
    match oracle idx with
    | HttpOutcome.netError =>
      match rest with
      | [] => ([callOllama m prompt], [],
               Except.ok (Report.failure gid m (failDetail none)))
      | r :: rs =>
        let t := attemptLoop oracle gid fileName prompt (idx + 1) (r :: rs)
        (callOllama m prompt :: t.1, t.2.1, t.2.2)
    | HttpOutcome.status code body =>
      if 400 ≤ code ∧ code < 600 then
        match rest with
        | [] => ([callOllama m prompt], [],
                 Except.ok (Report.failure gid m (failDetail (some body))))
        | r :: rs =>
          let t := attemptLoop oracle gid fileName prompt (idx + 1) (r :: rs)
          (callOllama m prompt :: t.1, t.2.1, t.2.2)
      else
        match body.json with
        | none => ([callOllama m prompt], [], Except.error PyError.jsonDecodeError)
        | some obj =>
          match List.lookup "response" obj with
          | none => ([callOllama m prompt], [],
                     Except.error (PyError.keyError "response"))
          | some ans =>
            ([callOllama m prompt],
             [(fileName, { group_id := gid, model := m, answer := pyStrip ans })],
             Except.ok (Report.success gid))

/-- Embeds process_prompt: parse the descriptor (exceptions escape), check
the done table, then run the attempt loop. The ledger argument is the set
of ids in the done table at the moment done(gid) executes. -/
def processPrompt (ledger : List String) (oracle : Nat → HttpOutcome)
    (fileName : String) (content : FileContent) : WorkerOut :=
  match parseDescriptor content with
  | Except.error e => ([], [], Except.error e)
  | Except.ok (gid, model, prompt) =>
    if gid ∈ ledger then
      ([], [], Except.ok (Report.skipped gid))
    else
      attemptLoop oracle gid fileName prompt 1 (attemptsFor model)

/-- Embeds mark_batch: INSERT OR IGNORE each id into the done table, kept
as an insertion-ordered list without duplicates. -/
def markBatch (ledger : List String) (gids : List String) : List String :=
  gids.foldl (fun acc g => if g ∈ acc then acc else acc ++ [g]) ledger

/-- The ids a collected report stages for ledger insertion: only a success
report appends its gid to completed_batch. -/
def staged : Report → List String
  | Report.success g => [g]
  | _ => []

/-- State threaded through the collection loop of main: the done table,
the in-memory completed_batch, and the reports printed so far in order. -/
structure MainState where
  ledger : List String
  batch : List String
  printed : List Report
  deriving DecidableEq, Repr

/-- One iteration of the collection loop in main for a report that arrived
without an exception: print it, stage a success gid, and flush the batch
into the ledger when it holds at least 10 ids or this was the last of the
`total` futures. -/
def mainStep (total i : Nat) (st : MainState) (r : Report) : MainState :=
  if 10 ≤ (st.batch ++ staged r).length ∨ i + 1 = total then
    { ledger := markBatch st.ledger (st.batch ++ staged r), batch := [],
      printed := st.printed ++ [r] }
  else
    { ledger := st.ledger, batch := st.batch ++ staged r,
      printed := st.printed ++ [r] }

/-- Embeds the as_completed collection loop of main over the worker
outcomes in completion order. fut.result() re-raises a worker exception,
which aborts the loop: the state at that moment and the exception are
returned, the staged batch unflushed and the remaining outcomes dropped. -/
def mainLoop (total : Nat) (st : MainState) (i : Nat) :
    List (Except PyError Report) → Except (MainState × PyError) MainState
  | [] => Except.ok st
  | Except.error e :: _ => Except.error (st, e)
  | Except.ok r :: rest => mainLoop total (mainStep total i st r) (i + 1) rest

/-- MAX_WORKERS from run_prompts.py: twice the CPU count (4 when
os.cpu_count() is falsy), capped at 8. -/
def MAX_WORKERS (cpuCount : Option Nat) : Nat :=
  min 8 ((match cpuCount with
          | none => 4
          | some n => if n = 0 then 4 else n) * 2)

/-- State of the worker pool: calls in flight and tasks not yet started.
Each worker drives at most one Service Client call at a time, because the
attempt loop is strictly sequential, so in-flight calls are bounded by
busy workers. -/
structure PoolState where
  inFlight : Nat
  pending : Nat
  deriving DecidableEq, Repr

/-- Transitions of a ThreadPoolExecutor with max_workers = n, modelled
from its documented contract: a pending task starts only when a worker
slot is free, and a busy worker can finish. -/
inductive PoolStep (n : Nat) : PoolState → PoolState → Prop
  | start (s : PoolState) : s.inFlight < n → 0 < s.pending →
      PoolStep n s { inFlight := s.inFlight + 1, pending := s.pending - 1 }
  | finish (s : PoolState) : 0 < s.inFlight →
      PoolStep n s { inFlight := s.inFlight - 1, pending := s.pending }

/-- Output directory of run_prompts.py. -/
def OUT_DIR : String := "data/completions"

/-- Path of a sink write: OUT_DIR joined with the descriptor file name. -/
def outPath (fileName : String) : String := OUT_DIR ++ "/" ++ fileName

/-- The output sink as a map from path to the record last written there. -/
abbrev Sink := String → Option CompletionRecord

/-- A write_text to a path: the new content fully replaces the old. -/
def sinkWrite (s : Sink) (path : String) (rec : CompletionRecord) : Sink :=
  fun k => if k = path then some rec else s k

/-- File name under which prompt_builder.py stores the descriptor of a
group: gid followed by the jsonl suffix. -/
def builderFileName (gid : String) : String := gid ++ ".jsonl"

/-- Descriptor content written by prompt_builder.py for a group. -/
def builderContent (gid model prompt : String) : FileContent :=
  FileContent.record [("group_id", gid), ("model", model), ("prompt", prompt)]

/-! Helper lemmas about the ledger operations. -/

theorem markBatch_cons (L : List String) (x : String) (xs : List String) :
    markBatch L (x :: xs) = markBatch (if x ∈ L then L else L ++ [x]) xs := rfl

theorem mem_markBatch :
    ∀ (gs L : List String) (g : String), g ∈ markBatch L gs ↔ g ∈ L ∨ g ∈ gs := by
  intro gs
  induction gs with
  | nil => intro L g; simp [markBatch]
  | cons x xs ih =>
    intro L g
    rw [markBatch_cons, ih]
    by_cases hx : x ∈ L
    · rw [if_pos hx]
      simp only [List.mem_cons]
      constructor
      · rintro (h | h)
        · exact Or.inl h
        · exact Or.inr (Or.inr h)
      · rintro (h | rfl | h)
        · exact Or.inl h
        · exact Or.inl hx
        · exact Or.inr h
    · rw [if_neg hx]
      simp only [List.mem_append, List.mem_singleton, List.mem_cons]
      tauto

theorem nodup_markBatch :
    ∀ (gs L : List String), L.Nodup → (markBatch L gs).Nodup := by
  intro gs
  induction gs with
  | nil => intro L h; exact h
  | cons x xs ih =>
    intro L h
    rw [markBatch_cons]
    by_cases hx : x ∈ L
    · rw [if_pos hx]; exact ih L h
    · rw [if_neg hx]
      refine ih _ ?_
      rw [List.nodup_append]
      exact ⟨h, List.nodup_singleton x, List.disjoint_singleton.2 hx⟩

theorem staged_mem (r : Report) (g : String) :
    g ∈ staged r ↔ r = Report.success g := by
  cases r with
  | skipped g0 => simp [staged]
  | success g0 => simp [staged, eq_comm]
  | failure g0 m d => simp [staged]

/-! Helper lemmas about the attempt loop of process_prompt. -/

theorem attemptLoop_fail_step (oracle : Nat → HttpOutcome) (gid fn p m r : String)
    (rs : List String) (idx : Nat) (hf : isFailureB (oracle idx) = true) :
    attemptLoop oracle gid fn p idx (m :: r :: rs) =
      (callOllama m p :: (attemptLoop oracle gid fn p (idx + 1) (r :: rs)).1,
       (attemptLoop oracle gid fn p (idx + 1) (r :: rs)).2) := by
  cases ho : oracle idx with
  | netError => simp [attemptLoop, ho]
  | status code body =>
    have hc : 400 ≤ code ∧ code < 600 := by
      rw [ho] at hf
      simpa [isFailureB, Bool.and_eq_true, decide_eq_true_eq] using hf
    simp [attemptLoop, ho, hc]

theorem attemptLoop_fail_last (oracle : Nat → HttpOutcome) (gid fn p m : String)
    (idx : Nat) (hf : isFailureB (oracle idx) = true) :
    attemptLoop oracle gid fn p idx [m] =
      ([callOllama m p], [],
       Except.ok (Report.failure gid m (failDetail (respBody (oracle idx))))) := by
  cases ho : oracle idx with
  | netError => simp [attemptLoop, ho, respBody]
  | status code body =>
    have hc : 400 ≤ code ∧ code < 600 := by
      rw [ho] at hf
      simpa [isFailureB, Bool.and_eq_true, decide_eq_true_eq] using hf
    simp [attemptLoop, ho, hc, respBody]

theorem attemptLoop_single_calls (oracle : Nat → HttpOutcome) (gid fn p m : String)
    (idx : Nat) :
    (attemptLoop oracle gid fn p idx [m]).1 = [callOllama m p] := by
  cases ho : oracle idx with
  | netError => simp [attemptLoop, ho]
  | status code body =>
    by_cases hc : 400 ≤ code ∧ code < 600
    · simp [attemptLoop, ho, hc]
    · cases hj : body.json with
      | none => simp [attemptLoop, ho, hc, hj]
      | some obj =>
        cases hr : List.lookup "response" obj with
        | none => simp [attemptLoop, ho, hc, hj, hr]
        | some ans => simp [attemptLoop, ho, hc, hj, hr]

theorem attemptLoop_success (oracle : Nat → HttpOutcome) (gid fn p : String) :
    ∀ (ms : List String) (idx : Nat) (g : String),
    (attemptLoop oracle gid fn p idx ms).2.2 = Except.ok (Report.success g) →
    g = gid ∧ ∃ rec : CompletionRecord,
      (attemptLoop oracle gid fn p idx ms).2.1 = [(fn, rec)] ∧
      rec.group_id = gid := by
  intro ms
  induction ms with
  | nil =>
    intro idx g h
    have e : attemptLoop oracle gid fn p idx [] =
        ([], [], Except.error PyError.noneType) := rfl
    rw [e] at h
    simp at h
  | cons m rest ih =>
    intro idx g h
    cases ho : oracle idx with
    | netError =>
      cases rest with
      | nil =>
        rw [attemptLoop_fail_last oracle gid fn p m idx (by simp [isFailureB, ho])]
          at h
        simp at h
      | cons r rs =>
        have e := attemptLoop_fail_step oracle gid fn p m r rs idx
          (by simp [isFailureB, ho])
        rw [e] at h ⊢
        exact ih (idx + 1) g h
    | status code body =>
      by_cases hc : 400 ≤ code ∧ code < 600
      · have hf : isFailureB (oracle idx) = true := by
          simp [isFailureB, ho]
          omega
        cases rest with
        | nil =>
          rw [attemptLoop_fail_last oracle gid fn p m idx hf] at h
          simp at h
        | cons r rs =>
          have e := attemptLoop_fail_step oracle gid fn p m r rs idx hf
          rw [e] at h ⊢
          exact ih (idx + 1) g h
      · cases hj : body.json with
        | none =>
          have e : attemptLoop oracle gid fn p idx (m :: rest) =
              ([callOllama m p], [], Except.error PyError.jsonDecodeError) := by
            cases rest <;> simp [attemptLoop, ho, hc, hj]
          rw [e] at h
          simp at h
        | some obj =>
          cases hr : List.lookup "response" obj with
          | none =>
            have e : attemptLoop oracle gid fn p idx (m :: rest) =
                ([callOllama m p], [],
                 Except.error (PyError.keyError "response")) := by
              cases rest <;> simp [attemptLoop, ho, hc, hj, hr]
            rw [e] at h
            simp at h
          | some ans =>
            have e : attemptLoop oracle gid fn p idx (m :: rest) =
                ([callOllama m p],
                 [(fn, { group_id := gid, model := m, answer := pyStrip ans })],
                 Except.ok (Report.success gid)) := by
              cases rest <;> simp [attemptLoop, ho, hc, hj, hr]
            rw [e] at h ⊢
            simp only [Except.ok.injEq, Report.success.injEq] at h
            exact ⟨h.symm, ⟨⟨gid, m, pyStrip ans⟩, rfl, rfl⟩⟩

/-! Helper lemmas about process_prompt as a whole. -/

theorem processPrompt_parseError (L : List String) (oracle : Nat → HttpOutcome)
    (fn : String) (content : FileContent) (e : PyError)
    (h : parseDescriptor content = Except.error e) :
    processPrompt L oracle fn content = ([], [], Except.error e) := by
  simp [processPrompt, h]

theorem processPrompt_skip (L : List String) (oracle : Nat → HttpOutcome)
    (fn : String) (content : FileContent) (gid model prompt : String)
    (hp : parseDescriptor content = Except.ok (gid, model, prompt))
    (hmem : gid ∈ L) :
    processPrompt L oracle fn content = ([], [], Except.ok (Report.skipped gid)) := by
  simp [processPrompt, hp, hmem]

theorem processPrompt_success (L : List String) (oracle : Nat → HttpOutcome)
    (fn : String) (content : FileContent) (cs : List Call)
    (ws : List (String × CompletionRecord)) (g : String)
    (h : processPrompt L oracle fn content = (cs, ws, Except.ok (Report.success g))) :
    ∃ rec : CompletionRecord, ws = [(fn, rec)] ∧ rec.group_id = g := by
  cases hp : parseDescriptor content with
  | error e =>
    rw [processPrompt_parseError L oracle fn content e hp] at h
    simp at h
  | ok v =>
    obtain ⟨gid, model, prompt⟩ := v
    by_cases hmem : gid ∈ L
    · rw [processPrompt_skip L oracle fn content gid model prompt hp hmem] at h
      simp at h
    · have hu : processPrompt L oracle fn content =
          attemptLoop oracle gid fn prompt 1 (attemptsFor model) := by
        simp [processPrompt, hp, hmem]
      rw [hu] at h
      have h2 : (attemptLoop oracle gid fn prompt 1 (attemptsFor model)).2.2 =
          Except.ok (Report.success g) := by rw [h]
      obtain ⟨hg, rec, hw, hid⟩ :=
        attemptLoop_success oracle gid fn prompt (attemptsFor model) 1 g h2
      refine ⟨rec, ?_, by rw [hid, hg]⟩
      rw [← hw, h]

/-! Helper lemmas about the collection loop of main. -/

theorem mainStep_mem (total i : Nat) (st : MainState) (r : Report) (g : String) :
    (g ∈ (mainStep total i st r).ledger ∨ g ∈ (mainStep total i st r).batch) ↔
      (g ∈ st.ledger ∨ g ∈ st.batch ∨ g ∈ staged r) := by
  unfold mainStep
  split
  · simp [mem_markBatch, List.mem_append, or_assoc]
  · simp [List.mem_append, or_assoc]

theorem mainLoop_mem :
    ∀ (rs : List (Except PyError Report)) (total i : Nat) (st st' : MainState),
    mainLoop total st i rs = Except.ok st' →
    ∀ g : String, (g ∈ st'.ledger ∨ g ∈ st'.batch) ↔
      (g ∈ st.ledger ∨ g ∈ st.batch ∨ ∃ r, Except.ok r ∈ rs ∧ g ∈ staged r) := by
  intro rs
  induction rs with
  | nil =>
    intro total i st st' h g
    rw [mainLoop] at h
    cases h
    simp
  | cons x rest ih =>
    intro total i st st' h g
    cases x with
    | error e => rw [mainLoop] at h; cases h
    | ok r =>
      rw [mainLoop] at h
      rw [ih total (i + 1) (mainStep total i st r) st' h g, ← or_assoc,
        mainStep_mem, or_assoc]
      simp only [List.mem_cons, Except.ok.injEq, or_and_right, exists_or,
        exists_eq_left]
      tauto

theorem mainLoop_flush :
    ∀ (rs : List (Except PyError Report)) (total i : Nat) (st st' : MainState),
    rs ≠ [] → i + rs.length = total → mainLoop total st i rs = Except.ok st' →
    st'.batch = [] := by
  intro rs
  induction rs with
  | nil => intro total i st st' hne; exact absurd rfl hne
  | cons x rest ih =>
    intro total i st st' _ hlen h
    cases x with
    | error e => rw [mainLoop] at h; cases h
    | ok r =>
      rw [mainLoop] at h
      cases rest with
      | nil =>
        rw [mainLoop] at h
        cases h
        have htot : i + 1 = total := by simpa using hlen
        unfold mainStep
        rw [if_pos (Or.inr htot)]
      | cons y ys =>
        refine ih total (i + 1) (mainStep total i st r) st' (by simp) ?_ h
        simp only [List.length_cons] at hlen ⊢
        omega

/-! Claim theorems. -/

/-- C6: mark_batch, embedded as markBatch, is idempotent: starting from a
duplicate-free done table, inserting any batch keeps it duplicate-free, an
id is present afterwards exactly when it was present before or is in the
batch, an id covered by either source has exactly one entry, and
re-inserting an already covered id in a later batch changes nothing.
Being a total function, markBatch raises no error. -/
theorem c6_ledger_insert_idempotent (L gs : List String) (g : String)
    (hnd : L.Nodup) :
    (markBatch L gs).Nodup ∧
    (g ∈ markBatch L gs ↔ g ∈ L ∨ g ∈ gs) ∧
    ((g ∈ L ∨ g ∈ gs) → (markBatch L gs).count g = 1) ∧
    ((g ∈ L ∨ g ∈ gs) → markBatch (markBatch L gs) [g] = markBatch L gs) := by
  refine ⟨nodup_markBatch gs L hnd, mem_markBatch gs L g, ?_, ?_⟩
  · intro hmem
    exact List.count_eq_one_of_mem (nodup_markBatch gs L hnd)
      ((mem_markBatch gs L g).2 hmem)
  · intro hmem
    have h1 : g ∈ markBatch L gs := (mem_markBatch gs L g).2 hmem
    show (if g ∈ markBatch L gs then markBatch L gs
          else markBatch L gs ++ [g]) = markBatch L gs
    rw [if_pos h1]

/-- C6 witness: inserting a batch with an id already present, and with an
internal duplicate, leaves exactly one entry for it and keeps the table
duplicate-free. -/
theorem c6_ledger_insert_idempotent_witness :
    (markBatch ["a"] ["a", "b", "a"]).Nodup ∧
    ("a" ∈ markBatch ["a"] ["a", "b", "a"] ↔
      "a" ∈ ["a"] ∨ "a" ∈ ["a", "b", "a"]) ∧
    (("a" ∈ ["a"] ∨ "a" ∈ ["a", "b", "a"]) →
      (markBatch ["a"] ["a", "b", "a"]).count "a" = 1) ∧
    (("a" ∈ ["a"] ∨ "a" ∈ ["a", "b", "a"]) →
      markBatch (markBatch ["a"] ["a", "b", "a"]) ["a"] =
        markBatch ["a"] ["a", "b", "a"]) :=
  c6_ledger_insert_idempotent ["a"] ["a", "b", "a"] "a" (by decide)

/-- C8: every attempt built by call_ollama carries the deadline obtained by
consulting the timeout table with the remapped model tag: 600 for the tag
phi:latest, 900 for deepseek-llm:latest, both also reached through the
MODEL_MAP remapping of the builder names, and 300 for every target whose
remapped tag is in neither table row. -/
theorem c8_timeout_table :
    (∀ m p : String, (callOllama m p).timeout = timeoutFor m ∧
       timeoutFor m = (List.lookup (remapModel m) TIMEOUTS).getD DEFAULT_TIMEOUT) ∧
    timeoutFor "phi:latest" = 600 ∧
    timeoutFor "deepseek-llm:latest" = 900 ∧
    timeoutFor "microsoft/phi-3-mini-4k-instruct" = 600 ∧
    timeoutFor "deepseek-llm" = 900 ∧
    DEFAULT_TIMEOUT = 300 ∧
    (∀ m : String, remapModel m ≠ "phi:latest" →
      remapModel m ≠ "deepseek-llm:latest" → timeoutFor m = 300) := by
  refine ⟨fun m p => ⟨rfl, rfl⟩, rfl, rfl, rfl, rfl, rfl, ?_⟩
  intro m h1 h2
  have hb1 : (remapModel m == "phi:latest") = false := beq_eq_false_iff_ne.2 h1
  have hb2 : (remapModel m == "deepseek-llm:latest") = false :=
    beq_eq_false_iff_ne.2 h2
  simp [timeoutFor, TIMEOUTS, List.lookup, hb1, hb2, DEFAULT_TIMEOUT]

/-- C8 witness: a target unknown to both tables gets the default 300
second deadline, alongside the table rows evaluated concretely. -/
theorem c8_timeout_table_witness :
    (callOllama "mistral" "p").timeout = timeoutFor "mistral" ∧
    timeoutFor "mistral" =
      (List.lookup (remapModel "mistral") TIMEOUTS).getD DEFAULT_TIMEOUT ∧
    timeoutFor "mistral" = 300 :=
  ⟨(c8_timeout_table.1 "mistral" "p").1,
   (c8_timeout_table.1 "mistral" "p").2,
   c8_timeout_table.2.2.2.2.2.2 "mistral" (by decide) (by decide)⟩

/-- C9: along every execution of the pool transition system started with
no work in flight, the number of in-flight Service Client calls never
exceeds MAX_WORKERS, and MAX_WORKERS is capped at 8 for every CPU count.
Each worker issues its attempts strictly sequentially, so in-flight calls
are bounded by busy workers, which the pool bounds by its size. -/
theorem c9_bounded_concurrency (cpuCount : Option Nat) (t : Nat) (s : PoolState)
    (h : Relation.ReflTransGen (PoolStep (MAX_WORKERS cpuCount))
      { inFlight := 0, pending := t } s) :
    s.inFlight ≤ MAX_WORKERS cpuCount ∧ MAX_WORKERS cpuCount ≤ 8 := by
  refine ⟨?_, Nat.min_le_left _ _⟩
  induction h with
  | refl => exact Nat.zero_le _
  | tail hab hbc ih =>
    cases hbc with
    | start hlt hp => exact hlt
    | finish hpos => exact le_trans (Nat.sub_le _ _) ih

/-- C9 witness: a pool over 2 CPUs holding a trace that starts two tasks
and finishes one stays within the bound, and the bound is at most 8. -/
theorem c9_bounded_concurrency_witness :
    ({ inFlight := 1, pending := 1 } : PoolState).inFlight ≤
      MAX_WORKERS (some 2) ∧ MAX_WORKERS (some 2) ≤ 8 :=
  c9_bounded_concurrency (some 2) 3 { inFlight := 1, pending := 1 }
    (Relation.ReflTransGen.tail
      (Relation.ReflTransGen.tail
        (Relation.ReflTransGen.tail Relation.ReflTransGen.refl
          (PoolStep.start { inFlight := 0, pending := 3 } (by decide) (by decide)))
        (PoolStep.start { inFlight := 1, pending := 2 } (by decide) (by decide)))
      (PoolStep.finish { inFlight := 2, pending := 1 } (by decide)))

/-- C2: a descriptor whose id is in the done table when the worker checks
it yields the skip report with an empty call list, so no Service Client
request is issued for it, and mark_batch never removes an id, so an id in
the ledger at run start is still there at every later check. -/
theorem c2_idempotent_skip :
    (∀ (L : List String) (oracle : Nat → HttpOutcome) (fn : String)
       (content : FileContent) (gid model prompt : String),
       parseDescriptor content = Except.ok (gid, model, prompt) → gid ∈ L →
       processPrompt L oracle fn content =
         ([], [], Except.ok (Report.skipped gid))) ∧
    (∀ (L gs : List String) (g : String), g ∈ L → g ∈ markBatch L gs) :=
  ⟨processPrompt_skip,
   fun L gs g h => (mem_markBatch gs L g).2 (Or.inl h)⟩

/-- C2 witness: a task whose id g1 is already recorded is skipped with no
call issued, and g1 survives a later batch insertion. -/
theorem c2_idempotent_skip_witness :
    processPrompt ["g1"] (fun _ => HttpOutcome.netError) "g1.jsonl"
        (builderContent "g1" "deepseek-llm" "p") =
      ([], [], Except.ok (Report.skipped "g1")) ∧
    "g1" ∈ markBatch ["g1"] ["g2", "g3"] :=
  ⟨c2_idempotent_skip.1 ["g1"] (fun _ => HttpOutcome.netError) "g1.jsonl"
      (builderContent "g1" "deepseek-llm" "p") "g1" "deepseek-llm" "p"
      rfl (by decide),
   c2_idempotent_skip.2 ["g1"] ["g2", "g3"] "g1" (by decide)⟩

/-- C3: the attempt list is the declared model alone unless the declared
model is the lightweight microsoft/phi-3-mini-4k-instruct, in which case
exactly the fallback deepseek-llm is appended; a lightweight task whose
first attempt raises makes exactly two calls, the second against the
fallback, and a task on any other model, the fallback included, makes
exactly one call whatever the outcome. -/
theorem c3_fallback_escalation :
    (∀ m : String, m ≠ "microsoft/phi-3-mini-4k-instruct" →
      attemptsFor m = [m]) ∧
    attemptsFor "microsoft/phi-3-mini-4k-instruct" =
      ["microsoft/phi-3-mini-4k-instruct", "deepseek-llm"] ∧
    (∀ (oracle : Nat → HttpOutcome) (gid fn p : String),
      isFailureB (oracle 1) = true →
      (attemptLoop oracle gid fn p 1
        (attemptsFor "microsoft/phi-3-mini-4k-instruct")).1 =
        [callOllama "microsoft/phi-3-mini-4k-instruct" p,
         callOllama "deepseek-llm" p]) ∧
    (∀ (oracle : Nat → HttpOutcome) (gid fn p m : String),
      m ≠ "microsoft/phi-3-mini-4k-instruct" →
      (attemptLoop oracle gid fn p 1 (attemptsFor m)).1 = [callOllama m p]) := by
  have hlist : attemptsFor "microsoft/phi-3-mini-4k-instruct" =
      ["microsoft/phi-3-mini-4k-instruct", "deepseek-llm"] := by
    simp [attemptsFor]
  refine ⟨?_, hlist, ?_, ?_⟩
  · intro m hm
    simp [attemptsFor, hm]
  · intro oracle gid fn p hf
    rw [hlist,
      attemptLoop_fail_step oracle gid fn p "microsoft/phi-3-mini-4k-instruct"
        "deepseek-llm" [] 1 hf]
    simp [attemptLoop_single_calls]
  · intro oracle gid fn p m hm
    have h1 : attemptsFor m = [m] := by simp [attemptsFor, hm]
    rw [h1, attemptLoop_single_calls]

/-- C3 witness: with a first attempt timing out, a lightweight task makes
exactly the two calls and a fallback-declared task exactly one. -/
theorem c3_fallback_escalation_witness :
    attemptsFor "deepseek-llm" = ["deepseek-llm"] ∧
    (attemptLoop (fun _ => HttpOutcome.netError) "g1" "g1.jsonl" "p" 1
      (attemptsFor "microsoft/phi-3-mini-4k-instruct")).1 =
      [callOllama "microsoft/phi-3-mini-4k-instruct" "p",
       callOllama "deepseek-llm" "p"] ∧
    (attemptLoop (fun _ => HttpOutcome.netError) "g1" "g1.jsonl" "p" 1
      (attemptsFor "deepseek-llm")).1 = [callOllama "deepseek-llm" "p"] :=
  ⟨c3_fallback_escalation.1 "deepseek-llm" (by decide),
   c3_fallback_escalation.2.2.1 (fun _ => HttpOutcome.netError) "g1" "g1.jsonl"
     "p" (by decide),
   c3_fallback_escalation.2.2.2 (fun _ => HttpOutcome.netError) "g1" "g1.jsonl"
     "p" "deepseek-llm" (by decide)⟩

/-- C4: any attempt that raises RequestException, transient or permanent
alike, makes the loop move to the next model when one remains; when the
last attempt fails, the worker returns the failure line carrying the task
id, the model used, and the diagnostic computed per failDetail from the
last response, performing no sink write; a completed run only holds ids
that were already in the ledger or arrived in a success report, so a
final failure is never inserted; and the collection loop, on a failure
line, simply steps to the remaining outcomes. -/
theorem c4_failure_exhaustion :
    (∀ (oracle : Nat → HttpOutcome) (gid fn p m r : String) (rs : List String)
       (idx : Nat), isFailureB (oracle idx) = true →
       attemptLoop oracle gid fn p idx (m :: r :: rs) =
         (callOllama m p :: (attemptLoop oracle gid fn p (idx + 1) (r :: rs)).1,
          (attemptLoop oracle gid fn p (idx + 1) (r :: rs)).2)) ∧
    (∀ (oracle : Nat → HttpOutcome) (gid fn p m : String) (idx : Nat),
       isFailureB (oracle idx) = true →
       attemptLoop oracle gid fn p idx [m] =
         ([callOllama m p], [],
          Except.ok (Report.failure gid m (failDetail (respBody (oracle idx)))))) ∧
    (∀ (total : Nat) (rs : List (Except PyError Report)) (L0 : List String)
       (st' : MainState) (g : String),
       mainLoop total { ledger := L0, batch := [], printed := [] } 0 rs =
         Except.ok st' →
       g ∈ st'.ledger → g ∈ L0 ∨ Except.ok (Report.success g) ∈ rs) ∧
    (∀ (total i : Nat) (st : MainState) (gid m d : String)
       (rest : List (Except PyError Report)),
       mainLoop total st i (Except.ok (Report.failure gid m d) :: rest) =
         mainLoop total (mainStep total i st (Report.failure gid m d)) (i + 1)
           rest) := by
  refine ⟨attemptLoop_fail_step, attemptLoop_fail_last, ?_,
    fun total i st gid m d rest => rfl⟩
  intro total rs L0 st' g hrun hmem
  have h := (mainLoop_mem rs total 0 _ st' hrun g).1 (Or.inl hmem)
  rcases h with h | h | ⟨r, hr, hg⟩
  · exact Or.inl h
  · simp at h
  · exact Or.inr (by rwa [(staged_mem r g).1 hg] at hr)

/-- C4 witness: a 404 with a structured error body on the sole attempt of
a fallback-declared task produces the failure line with the diagnostic,
after which an id in the final ledger of a completed one-task run traces
back to the initial ledger or a success report, and the loop steps over a
failure line. -/
theorem c4_failure_exhaustion_witness :
    attemptLoop
        (fun _ => HttpOutcome.status 404
          { json := some [("error", "model not found")], text := "raw" })
        "g9" "g9.jsonl" "p" 1 ["deepseek-llm"] =
      ([callOllama "deepseek-llm" "p"], [],
       Except.ok (Report.failure "g9" "deepseek-llm"
         (failDetail (respBody (HttpOutcome.status 404
           { json := some [("error", "model not found")], text := "raw" }))))) ∧
    ("g0" ∈ (["g0"] : List String) ∨
      (Except.ok (Report.success "g0") : Except PyError Report) ∈
        ([Except.ok (Report.failure "g9" "deepseek-llm" "model not found")] :
          List (Except PyError Report))) ∧
    mainLoop 1 { ledger := ["g0"], batch := [], printed := [] } 0
        [Except.ok (Report.failure "g9" "deepseek-llm" "model not found")] =
      mainLoop 1
        (mainStep 1 0 { ledger := ["g0"], batch := [], printed := [] }
          (Report.failure "g9" "deepseek-llm" "model not found")) 1 [] := by
  refine ⟨?_, ?_, ?_⟩
  · exact c4_failure_exhaustion.2.1
      (fun _ => HttpOutcome.status 404
        { json := some [("error", "model not found")], text := "raw" })
      "g9" "g9.jsonl" "p" "deepseek-llm" 1 (by decide)
  · exact c4_failure_exhaustion.2.2.1 1
      [Except.ok (Report.failure "g9" "deepseek-llm" "model not found")]
      ["g0"] { ledger := ["g0"], batch := [], printed :=
        [Report.failure "g9" "deepseek-llm" "model not found"] } "g0"
      rfl (by decide)
  · exact c4_failure_exhaustion.2.2.2 1 0
      { ledger := ["g0"], batch := [], printed := [] } "g9" "deepseek-llm"
      "model not found" []

/-- C1: a worker whose attempt sequence reaches success performs exactly
one sink write, carrying the task id, before returning the gid (the write
is part of the worker result, so it precedes the staging done by the
collector); only a success report stages its id; and in a run whose
collection loop consumes all `total` outcomes without a crash, every
successful id is in the ledger at run end, the loop flushing whenever the
staged batch holds 10 ids and in any case when the final outcome arrives. -/
theorem c1_exactly_one_record_liveness :
    (∀ (L : List String) (oracle : Nat → HttpOutcome) (fn : String)
       (content : FileContent) (cs : List Call)
       (ws : List (String × CompletionRecord)) (g : String),
       processPrompt L oracle fn content =
         (cs, ws, Except.ok (Report.success g)) →
       ∃ rec : CompletionRecord, ws = [(fn, rec)] ∧ rec.group_id = g) ∧
    (∀ (r : Report) (g : String), g ∈ staged r → r = Report.success g) ∧
    (∀ (total : Nat) (rs : List (Except PyError Report)) (L0 : List String)
       (st' : MainState) (g : String), rs.length = total →
       mainLoop total { ledger := L0, batch := [], printed := [] } 0 rs =
         Except.ok st' →
       Except.ok (Report.success g) ∈ rs → g ∈ st'.ledger) := by
  refine ⟨processPrompt_success, fun r g => (staged_mem r g).1, ?_⟩
  intro total rs L0 st' g hlen hrun hmem
  have hne : rs ≠ [] := by
    intro hnil
    rw [hnil] at hmem
    simp at hmem
  have hb := mainLoop_flush rs total 0 _ st' hne (by simpa using hlen) hrun
  have h := (mainLoop_mem rs total 0 _ st' hrun g).2
    (Or.inr (Or.inr ⟨Report.success g, hmem, by simp [staged]⟩))
  rcases h with h | h
  · exact h
  · rw [hb] at h
    simp at h

/-- C1 witness: one task succeeding on its sole attempt writes exactly
one record for g1, and after the final-outcome flush g1 is in the ledger. -/
theorem c1_exactly_one_record_liveness_witness :
    (∃ rec : CompletionRecord,
       [("g1.jsonl",
         ({ group_id := "g1", model := "deepseek-llm", answer := "hi" } :
           CompletionRecord))] = [("g1.jsonl", rec)] ∧ rec.group_id = "g1") ∧
    "g1" ∈
      ({ ledger := ["g1"], batch := [], printed := [Report.success "g1"] } :
        MainState).ledger :=
  ⟨c1_exactly_one_record_liveness.1 []
      (fun _ => HttpOutcome.status 200
        { json := some [("response", " hi ")], text := "raw" })
      "g1.jsonl" (builderContent "g1" "deepseek-llm" "p")
      [callOllama "deepseek-llm" "p"]
      [("g1.jsonl", { group_id := "g1", model := "deepseek-llm", answer := "hi" })]
      "g1" rfl,
   c1_exactly_one_record_liveness.2.2 1 [Except.ok (Report.success "g1")] []
      { ledger := ["g1"], batch := [], printed := [Report.success "g1"] } "g1"
      rfl rfl (by simp)⟩

/-- C5 counterexample: a descriptor missing the payload field is not
skipped with a warning; process_prompt raises KeyError before any call,
and when the collector picks that worker up, fut.result() re-raises and
the run aborts with the second task never reported, refuting both the
skip-with-warning and the run-continues parts of the claim. -/
theorem c5_malformed_descriptor_counterexample :
    processPrompt [] (fun _ => HttpOutcome.netError) "bad.jsonl"
        (FileContent.record [("group_id", "g-bad"), ("model", "deepseek-llm")]) =
      ([], [], Except.error (PyError.keyError "prompt")) ∧
    mainLoop 2 { ledger := [], batch := [], printed := [] } 0
        [Except.error (PyError.keyError "prompt"),
         Except.ok (Report.success "g2")] =
      Except.error ({ ledger := [], batch := [], printed := [] },
        PyError.keyError "prompt") :=
  ⟨rfl, rfl⟩

/-- C5 amended: a malformed task descriptor (unreadable file, invalid
JSON, or a record missing a required field) makes process_prompt raise
before issuing any Service Client call, so its id is never attempted, but
instead of a logged warning the exception re-raises from fut.result() in
the main loop, aborting the batch with the remaining outcomes dropped. -/
theorem c5_malformed_descriptor_raises (L : List String)
    (oracle : Nat → HttpOutcome) (fn : String) (content : FileContent)
    (e : PyError) (h : parseDescriptor content = Except.error e) :
    processPrompt L oracle fn content = ([], [], Except.error e) ∧
    (∀ (total i : Nat) (st : MainState)
       (rest : List (Except PyError Report)),
       mainLoop total st i (Except.error e :: rest) = Except.error (st, e)) :=
  ⟨processPrompt_parseError L oracle fn content e h,
   fun _total _i _st _rest => rfl⟩

/-- C5 amended witness: the descriptor missing its prompt raises KeyError
with no call made, and the loop aborts on it. -/
theorem c5_malformed_descriptor_raises_witness :
    processPrompt [] (fun _ => HttpOutcome.netError) "other.jsonl"
        (FileContent.record [("group_id", "g7"), ("model", "deepseek-llm")]) =
      ([], [], Except.error (PyError.keyError "prompt")) ∧
    (∀ (total i : Nat) (st : MainState)
       (rest : List (Except PyError Report)),
       mainLoop total st i (Except.error (PyError.keyError "prompt") :: rest) =
         Except.error (st, PyError.keyError "prompt")) :=
  c5_malformed_descriptor_raises [] (fun _ => HttpOutcome.netError)
    "other.jsonl"
    (FileContent.record [("group_id", "g7"), ("model", "deepseek-llm")])
    (PyError.keyError "prompt") rfl

/-- C7: a successful run over a descriptor produced by prompt_builder
(stored under the name gid.jsonl with the id inside matching) writes its
record at data/completions/gid.jsonl, a location derived from the id
alone; and writing twice to the same path leaves exactly the second
record, with no merge and no error. -/
theorem c7_output_sink_stable_location :
    (∀ (L : List String) (oracle : Nat → HttpOutcome) (g m p : String)
       (cs : List Call) (ws : List (String × CompletionRecord)) (gid : String),
       processPrompt L oracle (builderFileName g) (builderContent g m p) =
         (cs, ws, Except.ok (Report.success gid)) →
       gid = g ∧ (∃ rec : CompletionRecord,
         ws = [(builderFileName g, rec)] ∧ rec.group_id = g) ∧
       outPath (builderFileName g) = "data/completions/" ++ (g ++ ".jsonl")) ∧
    (∀ (s : Sink) (path : String) (r1 r2 : CompletionRecord),
       sinkWrite (sinkWrite s path r1) path r2 = sinkWrite s path r2) := by
  constructor
  · intro L oracle g m p cs ws gid h
    have hp : parseDescriptor (builderContent g m p) = Except.ok (g, m, p) := by
      simp [parseDescriptor, builderContent, List.lookup]
    by_cases hmem : g ∈ L
    · rw [processPrompt_skip L oracle (builderFileName g) (builderContent g m p)
        g m p hp hmem] at h
      simp at h
    · have hu : processPrompt L oracle (builderFileName g) (builderContent g m p) =
          attemptLoop oracle g (builderFileName g) p 1 (attemptsFor m) := by
        simp [processPrompt, hp, hmem]
      rw [hu] at h
      have h2 : (attemptLoop oracle g (builderFileName g) p 1
          (attemptsFor m)).2.2 = Except.ok (Report.success gid) := by rw [h]
      obtain ⟨hg, rec, hw, hid⟩ :=
        attemptLoop_success oracle g (builderFileName g) p (attemptsFor m) 1
          gid h2
      refine ⟨hg, ⟨rec, ?_, hid⟩, ?_⟩
      · rw [← hw, h]
      · simp [outPath, OUT_DIR, builderFileName]
  · intro s path r1 r2
    funext k
    by_cases hk : k = path
    · simp [sinkWrite, hk]
    · simp [sinkWrite, hk]

/-- C7 witness: a concrete successful task g1 writes its record under
g1.jsonl, whose full path depends only on the id, and a second write to
that path replaces the first record. -/
theorem c7_output_sink_stable_location_witness :
    ("g1" = "g1" ∧ (∃ rec : CompletionRecord,
       [("g1.jsonl",
         ({ group_id := "g1", model := "deepseek-llm", answer := "hi" } :
           CompletionRecord))] = [(builderFileName "g1", rec)] ∧
       rec.group_id = "g1") ∧
     outPath (builderFileName "g1") = "data/completions/" ++ ("g1" ++ ".jsonl")) ∧
    sinkWrite (sinkWrite (fun _ => none) "data/completions/g1.jsonl"
        { group_id := "g1", model := "deepseek-llm", answer := "old" })
      "data/completions/g1.jsonl"
      { group_id := "g1", model := "deepseek-llm", answer := "new" } =
    sinkWrite (fun _ => none) "data/completions/g1.jsonl"
      { group_id := "g1", model := "deepseek-llm", answer := "new" } :=
  ⟨c7_output_sink_stable_location.1 []
      (fun _ => HttpOutcome.status 200
        { json := some [("response", " hi ")], text := "raw" })
      "g1" "deepseek-llm" "p" [callOllama "deepseek-llm" "p"]
      [("g1.jsonl", { group_id := "g1", model := "deepseek-llm", answer := "hi" })]
      "g1" rfl,
   c7_output_sink_stable_location.2 (fun _ => none) "data/completions/g1.jsonl"
      { group_id := "g1", model := "deepseek-llm", answer := "old" }
      { group_id := "g1", model := "deepseek-llm", answer := "new" }⟩

/-- C10: a well-formed descriptor whose attempt returns HTTP 200 with a
JSON body lacking the response field makes process_prompt raise KeyError,
which the RequestException handler does not catch; collected by the main
loop, the exception re-raises from fut.result() and aborts the run with
the staged success g1 not yet flushed to the ledger and the outcome of g3
never reported. -/
theorem c10_success_body_without_field_aborts :
    processPrompt [] (fun _ => HttpOutcome.status 200
        { json := some [("done", "true")], text := "ok" })
      "g11.jsonl"
      (FileContent.record
        [("group_id", "g11"), ("model", "deepseek-llm"), ("prompt", "p")]) =
      ([callOllama "deepseek-llm" "p"], [],
       Except.error (PyError.keyError "response")) ∧
    mainLoop 3 { ledger := [], batch := [], printed := [] } 0
        [Except.ok (Report.success "g1"),
         Except.error (PyError.keyError "response"),
         Except.ok (Report.success "g3")] =
      Except.error
        ({ ledger := [], batch := ["g1"], printed := [Report.success "g1"] },
         PyError.keyError "response") :=
  ⟨rfl, rfl⟩

end RunPrompts

